import Mathlib

/-!
Shallow embedding of the goplane EVPN/VXLAN dataplane agent
(repository `ttsubo/goplane`) for checking its natural-language
specification.  The definitions below are translated from the Go source:

* `config/serve.go`   — configuration reading and snapshot diffing
* `netlink/dataplane.go` — global RIB synchronizer (GRS), recursive
  nexthop resolution, startup loop, loopback programming, virtual
  network add/delete handlers.

Go maps, channels and netlink syscalls are modelled by explicit state
passing: the kernel neighbor tables are a record, netlink mutations are
an emitted list of `KernelOp`s, and `log.Fatal` is an `Except`-style
outcome.  Machine integers of the source (uint32 etc.) stay well below
their bounds in every operation modelled here, so they are embedded as
`Nat`.
-/

namespace Goplane

/-! ## Configuration data model (`config/config.go`) -/

/-- `config.VirtualNetwork` (mapstructure fields of the config file). -/
structure VirtualNetwork where
  RD               : String
  VNI              : Nat
  VxlanPort        : Nat
  VtepInterface    : String
  Etag             : Nat
  SniffInterfaces  : List String
  MemberInterfaces : List String
deriving DecidableEq, Repr

/-- `config.Dataplane`: the `dataplane` section of a snapshot. -/
structure DataplaneConfig where
  type               : String
  VirtualNetworkList : List VirtualNetwork
deriving DecidableEq, Repr

/-- `bgpconfig.GlobalConfig` (only the fields the dataplane reads). -/
structure BgpGlobalConfig where
  As       : Nat
  RouterId : String
deriving DecidableEq, Repr

/-- `bgpconfig.Global` as used through `GetServer` and config diffing. -/
structure BgpGlobal where
  Config : BgpGlobalConfig
deriving DecidableEq, Repr

/-- `bgpconfig.BgpConfigSet` (only the `Global` part is inspected here). -/
structure BgpConfigSet where
  Global : BgpGlobal
deriving DecidableEq, Repr

/-- `config.Config`: one configuration snapshot. -/
structure Config where
  Dataplane : DataplaneConfig
  BGP       : BgpConfigSet
deriving DecidableEq, Repr

/-! ## Snapshot diffing (`config/serve.go`, `UpdateConfig` / `inSlice`) -/

/-- `inSlice` from `config/serve.go`: index of the first entry of `list`
whose `RD` equals `one.RD`, `-1` when none does.  The comparison is on
the RD alone. -/
def inSlice (one : VirtualNetwork) (list : List VirtualNetwork) : Int :=
  match list.findIdx? (fun vn => vn.RD == one.RD) with
  | some idx => (idx : Int)
  | none => -1

/-- `UpdateConfig` from `config/serve.go`: diff two successive
`Dataplane` sections.  `curC = none` models the nil pointer of the very
first application; otherwise `added` collects new entries whose RD is
absent from the current list and `deleted` collects current entries
whose RD is absent from the new list, each in source order. -/
def UpdateConfig (curC : Option DataplaneConfig) (newC : DataplaneConfig) :
    List VirtualNetwork × List VirtualNetwork :=
  match curC with
  | none => (newC.VirtualNetworkList, [])
  | some cur =>
    (newC.VirtualNetworkList.filter
        (fun n => inSlice n cur.VirtualNetworkList < 0),
     cur.VirtualNetworkList.filter
        (fun n => inSlice n newC.VirtualNetworkList < 0))

/-! ## Configuration reading loop (`config/serve.go`, `ReadConfigfileServe`)

Each pass of the loop reads and unmarshals the file; both failure points
call `log.Fatal`, which terminates the process.  A run of the loop is
modelled by the list of successive parse results (index 0 is the startup
read triggered by the initial reload signal; later indices are
SIGHUP-triggered reloads).  The model returns the configs delivered to
`configCh` before the process died, and the fatal message if it did. -/

/-- One parse attempt of the config file: `ReadInConfig`/`UnmarshalExact`
combined outcome. -/
abbrev ParseResult := Except String Config

/-- `ReadConfigfileServe` run over a finite prefix of reload triggers:
delivers each successfully parsed config, dies (`log.Fatal`) at the
first parse failure.  Returns (delivered configs, fatal error if any). -/
def readConfigServe : List ParseResult → List Config × Option String
  | [] => ([], none)
  | (Except.error e) :: _ => ([], some e)
  | (Except.ok c) :: rest =>
    let r := readConfigServe rest
    (c :: r.1, r.2)

/-! ## Helper lemmas for diffing -/

/-- Membership in a list with a matching RD forces `inSlice` nonnegative. -/
theorem inSlice_nonneg_of_rd_mem {a : VirtualNetwork} {l : List VirtualNetwork}
    (v : VirtualNetwork) (hv : v ∈ l) (hrd : v.RD = a.RD) :
    0 ≤ inSlice a l := by
  unfold inSlice
  have hsome : (l.findIdx? (fun vn => vn.RD == a.RD)).isSome := by
    rw [Option.isSome_iff_ne_none]
    intro hnone
    rw [List.findIdx?_eq_none_iff] at hnone
    have := hnone v hv
    simp [hrd] at this
  obtain ⟨idx, hidx⟩ := Option.isSome_iff_exists.mp hsome
  rw [hidx]
  exact Int.ofNat_nonneg idx

/-- When no member of `l` shares `a`'s RD, `inSlice` is `-1`. -/
theorem inSlice_neg_of_no_rd {a : VirtualNetwork} {l : List VirtualNetwork}
    (h : ∀ v ∈ l, v.RD ≠ a.RD) : inSlice a l = -1 := by
  unfold inSlice
  have hnone : l.findIdx? (fun vn => vn.RD == a.RD) = none := by
    rw [List.findIdx?_eq_none_iff]
    intro v hv
    simp [h v hv]
  rw [hnone]

/-! ## Kernel model (`vishvananda/netlink` as used by `netlink/dataplane.go`)

IP addresses are either IPv4 (four octets) or an opaque IPv6 text form;
`To4` succeeds exactly on the IPv4 constructor, mirroring
`net.IP.To4()` on the addresses this program handles.  A `nil` `net.IP`
is `Option.none` wherever the Go code can hold one. -/

inductive IP where
  | v4 (a b c d : Nat)
  | v6 (repr : String)
deriving DecidableEq, Repr

/-- `net.IP.To4()`: some for IPv4, none for IPv6. -/
def ipTo4 : IP → Option IP
  | IP.v4 a b c d => some (IP.v4 a b c d)
  | IP.v6 _ => none

/-- `net.IP.String()` for the addresses that occur here. -/
def ipString : IP → String
  | IP.v4 a b c d =>
    toString a ++ "." ++ toString b ++ "." ++ toString c ++ "." ++ toString d
  | IP.v6 r => r

/-- Decimal digit value of a character, `none` on non-digits. -/
def digitVal (c : Char) : Option Nat :=
  if 48 ≤ c.toNat ∧ c.toNat ≤ 57 then some (c.toNat - 48) else none

/-- Accumulate a decimal number over characters. -/
def charsToNatAux : List Char → Nat → Option Nat
  | [], acc => some acc
  | c :: rest, acc =>
    match digitVal c with
    | none => none
    | some d => charsToNatAux rest (acc * 10 + d)

/-- Parse a nonempty all-digit character list as a decimal number. -/
def charsToNat? : List Char → Option Nat
  | [] => none
  | cs => charsToNatAux cs 0

/-- Split a character list on a separator (text splitting as
`strings.Split` / `String.splitOn` do it, over characters). -/
def splitOnChar (sep : Char) : List Char → List (List Char)
  | [] => [[]]
  | c :: rest =>
    let r := splitOnChar sep rest
    if c = sep then [] :: r
    else
      match r with
      | [] => [[c]]
      | g :: gs => (c :: g) :: gs

/-- `net.ParseIP` restricted to the dotted-quad router IDs this program
feeds it (IPv6 literals never reach this call in `dataplane.go`). -/
def parseIP (s : String) : Option IP :=
  match (splitOnChar '.' s.data).map charsToNat? with
  | [some a, some b, some c, some d] =>
    if a < 256 && b < 256 && c < 256 && d < 256 then
      some (IP.v4 a b c d)
    else none
  | _ => none

-- netlink package constants used by dataplane.go
def FAMILY_V4 : Nat := 2
def FAMILY_V6 : Nat := 10
def FLAG_ONLINK : Nat := 4
def NUD_PERMANENT : Nat := 128

/-- `netlink.Neigh` (the fields dataplane.go reads or writes). -/
structure Neigh where
  linkIndex    : Nat
  state        : Nat
  ip           : IP
  hardwareAddr : String
deriving DecidableEq, Repr

/-- The kernel neighbor tables visible through `netlink.NeighList`. -/
structure Kernel where
  neighsV6 : List Neigh
  neighsV4 : List Neigh
deriving DecidableEq, Repr

/-- `netlink.NeighList(linkIndex, family)`: the family's table, filtered
to one link unless `linkIndex = 0` (which means all links). -/
def neighList (k : Kernel) (linkIndex : Nat) (family : Nat) : List Neigh :=
  let l := if family == FAMILY_V6 then k.neighsV6 else k.neighsV4
  if linkIndex == 0 then l else l.filter (fun n => n.linkIndex == linkIndex)

/-- `netlink.NeighAdd` of an IPv4 neighbor (the only NeighAdd in the
source adds `169.254.0.1`, an IPv4 address). -/
def neighAddV4 (k : Kernel) (n : Neigh) : Kernel :=
  { k with neighsV4 := k.neighsV4 ++ [n] }

/-- `netlink.NexthopInfo` as built in `modRib`'s multipath branch. -/
structure NexthopInfo where
  gw        : Option IP
  linkIndex : Nat
  flags     : Nat
deriving DecidableEq, Repr

/-- `netlink.Route` (the fields `modRib` sets).  `dst` keeps the NLRI
text that Go hands to `netlink.ParseIPNet`. -/
structure Route where
  dst       : String
  src       : Option IP
  gw        : Option IP
  linkIndex : Nat
  flags     : Nat
  multiPath : List NexthopInfo
deriving DecidableEq, Repr

/-- `netlink.Addr` restricted to what `Serve` compares: IP plus mask
length (`Addr.Equal` compares IP and mask). -/
structure Addr where
  ip      : IP
  maskLen : Nat
deriving DecidableEq, Repr

/-- Kernel mutations issued by the dataplane, in issue order.  The
constructors are the netlink calls `dataplane.go` makes; `addrDel`
never occurs in the source and is present so that its absence is a
provable statement rather than one true by the type alone. -/
inductive KernelOp where
  | neighAdd (n : Neigh)
  | routeDel (r : Route)
  | routeReplace (r : Route)
  | addrAdd (a : Addr)
  | addrDel (a : Addr)
deriving DecidableEq, Repr

/-! ## BGP path model (`table.Path` / `api.Path` as read by dataplane.go) -/

/-- The two nexthop-bearing path attributes plus everything else
(`getNextHopFromPathAttributes` ignores other kinds).  The carried IP
is optional because a Go attribute can hold a nil `net.IP`. -/
inductive PathAttribute where
  | nextHop (value : Option IP)
  | mpReachNLRI (nexthop : Option IP)
  | other
deriving DecidableEq, Repr

/-- `getNextHopFromPathAttributes` from dataplane.go: first NEXT_HOP or
MP_REACH nexthop in attribute order, nil when absent. -/
def getNextHopFromPathAttributes : List PathAttribute → Option IP
  | [] => none
  | PathAttribute.nextHop v :: _ => v
  | PathAttribute.mpReachNLRI v :: _ => v
  | PathAttribute.other :: rest => getNextHopFromPathAttributes rest

/-- `table.PeerInfo` (`path.GetSource()`): `address` is `none` when the
source's `net.IP` is nil, in which case `String()` prints `"<nil>"`. -/
structure PeerInfo where
  address : Option IP
deriving DecidableEq, Repr

/-- `table.Path` (the parts dataplane.go reads): NLRI text, route
family code (`afi<<16 | safi` as in gobgp), withdraw flag, source peer
(`none` models a nil `GetSource()`), and path attributes. -/
structure TablePath where
  nlriString  : String
  routeFamily : Nat
  isWithdraw  : Bool
  source      : Option PeerInfo
  attrs       : List PathAttribute
deriving DecidableEq, Repr

/-- `bgp.AfiSafiToRouteFamily`: `RouteFamily(int(afi)<<16 | int(safi))`. -/
def AfiSafiToRouteFamily (afi safi : Nat) : Nat := afi * 65536 + safi

def AFI_IP : Nat := 1
def SAFI_UNICAST : Nat := 1

/-- The family constant computed at the top of `monitorBest`. -/
def RF_IPv4_UC : Nat := AfiSafiToRouteFamily AFI_IP SAFI_UNICAST

/-- `api.Path` (the fields `modRib`/`getNexthop` read after
`toPathApi`). -/
structure ApiPath where
  neighborIp : String
  attrs      : List PathAttribute
  isWithdraw : Bool
deriving DecidableEq, Repr

/-- `toPathApi` from dataplane.go, restricted to the fields later read:
`NeighborIp` is set from `GetSource().Address.String()` only when the
source is non-nil (it stays `""` otherwise, and a nil address prints
`"<nil>"`). -/
def toPathApi (p : TablePath) : ApiPath :=
  { neighborIp :=
      match p.source with
      | none => ""
      | some s =>
        match s.address with
        | none => "<nil>"
        | some ip => ipString ip
    attrs := p.attrs
    isWithdraw := p.isWithdraw }

/-! ## Recursive nexthop resolution (`Dataplane.getNexthop`) -/

/-- Result of `getNexthop`: the kernel after any `NeighAdd` side
effect, the netlink mutations issued, and the returned
`(link, gw, flags)` triple. -/
structure NexthopOut where
  kernel : Kernel
  ops    : List KernelOp
  link   : Nat
  gw     : Option IP
  flags  : Nat
deriving DecidableEq, Repr

/-- `Dataplane.getNexthop` from dataplane.go.  The two `NeighList`
error branches of the source cannot occur in this kernel model (list
reads do not fail); every other branch is translated directly.  Note
that `flags` is set to `FLAG_ONLINK` *before* the IPv4 neighbor scan,
so both neighbor-table outcomes return `FLAG_ONLINK`. -/
def getNexthop (k : Kernel) (path : Option ApiPath) : NexthopOut :=
  match path with
  | none => ⟨k, [], 0, none, 0⟩
  | some p =>
    if p.neighborIp == "<nil>" then ⟨k, [], 0, none, 0⟩
    else
      match (getNextHopFromPathAttributes p.attrs).bind ipTo4 with
      | some nh4 => ⟨k, [], 0, some nh4, 0⟩
      | none =>
        match (neighList k 0 FAMILY_V6).find?
            (fun n => getNextHopFromPathAttributes p.attrs == some n.ip) with
        | none => ⟨k, [], 0, none, 0⟩
        | some neigh =>
          match (neighList k neigh.linkIndex FAMILY_V4).find?
              (fun n => n.hardwareAddr == neigh.hardwareAddr) with
          | some n => ⟨k, [], n.linkIndex, ipTo4 n.ip, FLAG_ONLINK⟩
          | none =>
            ⟨neighAddV4 k ⟨neigh.linkIndex, NUD_PERMANENT, IP.v4 169 254 0 1,
                neigh.hardwareAddr⟩,
             [KernelOp.neighAdd ⟨neigh.linkIndex, NUD_PERMANENT,
                IP.v4 169 254 0 1, neigh.hardwareAddr⟩],
             neigh.linkIndex, some (IP.v4 169 254 0 1), FLAG_ONLINK⟩

/-! ## Kernel route synchronization (`Dataplane.modRib`) -/

/-- Result of `modRib`: kernel after side effects plus netlink calls
issued, in order. -/
structure RibOut where
  kernel : Kernel
  ops    : List KernelOp
deriving DecidableEq, Repr

/-- Accumulator of `modRib`'s multipath loop. -/
structure MpAcc where
  kernel : Kernel
  ops    : List KernelOp
  mp     : List NexthopInfo
deriving DecidableEq, Repr

/-- One iteration of `modRib`'s multipath loop: paths whose
`NeighborIp` prints `"<nil>"` are skipped (`continue`); every other
path gets a `NexthopInfo` appended with whatever `getNexthop` returned,
even when the gateway came back nil. -/
def mpStep (acc : MpAcc) (path : TablePath) : MpAcc :=
  if (toPathApi path).neighborIp == "<nil>" then acc
  else
    let r := getNexthop acc.kernel (some (toPathApi path))
    ⟨r.kernel, acc.ops ++ r.ops, acc.mp ++ [⟨r.gw, r.link, r.flags⟩]⟩

/-- `Dataplane.modRib` from dataplane.go.  The route starts from the
first path's NLRI with `Src = net.ParseIP(routerId)`; a single
non-self path contributes its resolved `(gw, link, flags)`; several
paths build a `MultiPath` list; the withdraw flag of the *first* path
selects `RouteDel` versus `RouteReplace`. -/
def modRib (k : Kernel) (routerId : String) (paths : List TablePath) :
    RibOut :=
  match paths with
  | [] => ⟨k, []⟩
  | p :: rest =>
    let route0 : Route :=
      { dst := p.nlriString, src := parseIP routerId,
        gw := none, linkIndex := 0, flags := 0, multiPath := [] }
    match rest with
    | [] =>
      if (toPathApi p).neighborIp == "<nil>" then ⟨k, []⟩
      else
        let r := getNexthop k (some (toPathApi p))
        let route :=
          { route0 with gw := r.gw, linkIndex := r.link, flags := r.flags }
        ⟨r.kernel, r.ops ++
          [if p.isWithdraw then KernelOp.routeDel route
           else KernelOp.routeReplace route]⟩
    | _ :: _ =>
      let acc := (p :: rest).foldl mpStep ⟨k, [], []⟩
      if acc.mp.isEmpty then ⟨acc.kernel, acc.ops⟩
      else
        let route := { route0 with multiPath := acc.mp }
        ⟨acc.kernel, acc.ops ++
          [if p.isWithdraw then KernelOp.routeDel route
           else KernelOp.routeReplace route]⟩

/-! ## Best-path watch loop (`Dataplane.monitorBest`) -/

/-- The two event kinds `monitorBest`'s switch matches.  Path slices
may hold nil pointers (`Option`). -/
inductive WatchEvent where
  | bestPath (pathList : List (Option TablePath))
      (multiPathList : List (List (Option TablePath)))
  | update (pathList : List (Option TablePath))
deriving DecidableEq, Repr

/-- The `paths` slice `monitorBest` extracts from an event: a best-path
event with a nonempty `MultiPathList` is flattened; otherwise its
`PathList` is used; an update event contributes its `PathList`. -/
def eventPaths : WatchEvent → List (Option TablePath)
  | WatchEvent.bestPath pathList multiPathList =>
    if multiPathList.length > 0 then multiPathList.flatten else pathList
  | WatchEvent.update pathList => pathList

/-- The per-path test of `monitorBest`'s inner loop:
`path == nil || family != path.GetRouteFamily()` sets
`exitCurrentLoop`. -/
def pathExitsLoop : Option TablePath → Bool
  | none => true
  | some path => !(RF_IPv4_UC == path.routeFamily)

/-- One turn of `monitorBest`'s event loop: the whole batch is sent to
`modRibCh` (`some paths`) unless some member trips
`exitCurrentLoop`, in which case nothing is sent (`none`). -/
def monitorBestStep (ev : WatchEvent) : Option (List (Option TablePath)) :=
  let paths := eventPaths ev
  if paths.any pathExitsLoop then none else some paths

/-! ## Startup loop and loopback programming (`Dataplane.Serve`) -/

/-- `Dataplane.GetServer`: reads the *local configuration's* global
section (not the running speaker). -/
def GetServer (c : Config) : BgpGlobal :=
  ⟨⟨c.BGP.Global.Config.As, c.BGP.Global.Config.RouterId⟩⟩

/-- The `routerId`/`localAS` fields of the `Dataplane` record. -/
structure StartupState where
  routerId : String
  localAS  : Nat
deriving DecidableEq, Repr

/-- Outcome of running `Serve`'s startup loop over a finite trace of
dial attempts: the sleep durations taken (seconds, in order), whether
the loop broke out (`ready`), and the field values on exit. -/
structure StartupOut where
  sleeps : List Nat
  ready  : Bool
  state  : StartupState
deriving DecidableEq, Repr

/-- `Serve`'s initial retry loop, driven by a trace of `NewClient`
outcomes (`true` = dial succeeded).  On a successful dial the fields
are loaded from `GetServer` (the local config) and the loop breaks
only when both are nonzero; every other iteration sleeps a fixed
10 seconds and retries.  An exhausted trace leaves the loop never
ready. -/
def serveStartupLoop (c : Config) (st : StartupState) :
    List Bool → StartupOut
  | [] => ⟨[], false, st⟩
  | false :: rest =>
    let r := serveStartupLoop c st rest
    ⟨10 :: r.sleeps, r.ready, r.state⟩
  | true :: rest =>
    let st' : StartupState :=
      ⟨(GetServer c).Config.RouterId, (GetServer c).Config.As⟩
    if st'.routerId ≠ "" ∧ st'.localAS ≠ 0 then ⟨[], true, st'⟩
    else
      let r := serveStartupLoop c st' rest
      ⟨10 :: r.sleeps, r.ready, r.state⟩

/-- `netlink.ParseAddr` restricted to the `routerId ++ "/32"` strings
this program feeds it. -/
def parseAddr (s : String) : Option Addr :=
  match splitOnChar '/' s.data with
  | [ipPart, maskPart] =>
    match parseIP (String.mk ipPart), charsToNat? maskPart with
    | some ip, some m => if m ≤ 32 then some ⟨ip, m⟩ else none
    | _, _ => none
  | _ => none

/-- The loopback-programming section of `Serve` (after the startup
loop): list the loopback's addresses, scan for `routerId/32`
(`a.Equal(*addr)` — no early exit in the source loop, hence the fold),
and `AddrAdd` it only when absent.  No address is ever removed. -/
def serveLoopbackSetup (addrList : List Addr) (routerId : String) :
    Except String (List KernelOp) :=
  match parseAddr (routerId ++ "/32") with
  | none => Except.error ("failed to parse addr: " ++ routerId)
  | some addr =>
    let exist := addrList.foldl (fun e a => if a == addr then true else e) false
    if exist then Except.ok []
    else Except.ok [KernelOp.addrAdd addr]

/-! ## Virtual network add/delete handlers (`Serve`'s select loop) -/

/-- A started virtual-network worker (`*VirtualNetwork`); its worker
loop lives in `netlink/virtualnetwork.go` and is irrelevant here beyond
identity. -/
structure VNWorker where
  rd : String
deriving DecidableEq, Repr

/-- The `vnMap` field: a Go `map[string]*VirtualNetwork`, modelled as an
association list keyed by RD. -/
abbrev VnMap := List (String × VNWorker)

/-- Modelled from the spec: `VirtualNetwork.Stop` lives in
`netlink/virtualnetwork.go`, which is not under src/.  Per §4.D it
signals the worker to run its *Stopping* steps; called on the nil
pointer produced by a missed Go map lookup it dereferences nil, so the
faulting outcome is `none`. -/
def stopWorker : Option VNWorker → Option VNWorker
  | none => none
  | some vn => some vn

/-- The `delVnCh` arm of `Serve`'s select loop:
`vn := d.vnMap[v.RD]; vn.Stop(); delete(d.vnMap, v.RD)` — the map
lookup is dereferenced unconditionally, so an absent RD faults
(`none`); otherwise the entry is removed and the stopped worker
returned. -/
def delVnHandler (m : VnMap) (rd : String) : Option (VnMap × VNWorker) :=
  match stopWorker (m.lookup rd) with
  | none => none
  | some vn => some (m.filter (fun e => !(e.1 == rd)), vn)

/-! ## VNW ingress translation (spec §4.C) -/

/-- An EVPN MAC/IP advertisement path as the VNW ingress sees it. -/
structure EvpnMacIpPath where
  neighborIp : String
  rd         : String
  etag       : Nat
  mac        : String
  nexthop    : Option IP
  vxlanVni   : Option Nat
deriving DecidableEq, Repr

/-- A bridge FDB entry: remote MAC mapped to remote VTEP with a VNI. -/
structure FdbEntry where
  mac     : String
  dstVtep : IP
  vni     : Nat
deriving DecidableEq, Repr

/-- Modelled from the spec: the VNW ingress translation
`evpn_macip_to_fdb` (its implementation, `netlink/virtualnetwork.go`,
is not under src/).  Per spec §4.C the path is ignored when (a) it is
self-originated, (b) RD or etag do not match the VNW, or (c) no VXLAN
VNI extended community is carried; otherwise the FDB entry maps the MAC
to the remote VTEP (the path nexthop) under the community's VNI. -/
def evpn_macip_to_fdb (p : EvpnMacIpPath) (vn : VirtualNetwork) :
    Option FdbEntry :=
  if p.neighborIp == "<nil>" then none
  else if !(p.rd == vn.RD && p.etag == vn.Etag) then none
  else
    match p.nexthop, p.vxlanVni with
    | some vtep, some vni => some ⟨p.mac, vtep, vni⟩
    | _, _ => none

/-! ## Claim C8 — applying the same snapshot twice is a no-op -/

/-- C8: for every configuration snapshot `S`, diffing `S` against
itself yields empty added and empty deleted VirtualNetwork lists, so a
second application of the same snapshot creates and destroys no
workers. -/
theorem C8_same_snapshot_noop (S : DataplaneConfig) :
    UpdateConfig (some S) S = ([], []) := by
  have h : S.VirtualNetworkList.filter
      (fun n => decide (inSlice n S.VirtualNetworkList < 0)) = [] := by
    rw [List.filter_eq_nil_iff]
    intro a ha
    simp only [decide_eq_true_eq, not_lt]
    exact inSlice_nonneg_of_rd_mem a ha rfl
  have hdef : UpdateConfig (some S) S =
      (S.VirtualNetworkList.filter
        (fun n => decide (inSlice n S.VirtualNetworkList < 0)),
       S.VirtualNetworkList.filter
        (fun n => decide (inSlice n S.VirtualNetworkList < 0))) := rfl
  rw [hdef, h]

/-! ## Claim C2 — snapshot diffing is keyed by RD -/

/-- C2 counterexample: a VirtualNetwork whose RD is in both snapshots
but whose VNI changed (10 → 20) appears in *neither* the added nor the
deleted list — `UpdateConfig` compares RDs only, so the claimed
delete-then-add never happens. -/
theorem C2_counterexample :
    UpdateConfig
        (some ⟨"netlink", [⟨"65000:10", 10, 4789, "eth0", 10, [], []⟩]⟩)
        ⟨"netlink", [⟨"65000:10", 20, 4789, "eth0", 10, [], []⟩]⟩
      = ([], []) ∧
    (⟨"65000:10", 20, 4789, "eth0", 10, [], []⟩ : VirtualNetwork)
      ≠ ⟨"65000:10", 10, 4789, "eth0", 10, [], []⟩ := by
  exact ⟨rfl, by decide⟩

/-- C2 (amended): diffing is keyed by RD — an RD present only in the
new snapshot is added, an RD present only in the old snapshot is
deleted, and a VirtualNetwork whose RD occurs in both snapshots lands
in *neither* list, even when its other fields changed (field changes
within an existing RD are invisible to the diff). -/
theorem C2_rd_keyed_diff (cur newC : DataplaneConfig) (vn : VirtualNetwork) :
    (vn ∈ newC.VirtualNetworkList →
      (∀ v ∈ cur.VirtualNetworkList, v.RD ≠ vn.RD) →
      vn ∈ (UpdateConfig (some cur) newC).1) ∧
    (vn ∈ cur.VirtualNetworkList →
      (∀ v ∈ newC.VirtualNetworkList, v.RD ≠ vn.RD) →
      vn ∈ (UpdateConfig (some cur) newC).2) ∧
    ((∃ v ∈ cur.VirtualNetworkList, v.RD = vn.RD) →
      vn ∉ (UpdateConfig (some cur) newC).1) ∧
    ((∃ v ∈ newC.VirtualNetworkList, v.RD = vn.RD) →
      vn ∉ (UpdateConfig (some cur) newC).2) := by
  refine ⟨?_, ?_, ?_, ?_⟩
  · intro hmem hno
    unfold UpdateConfig
    exact List.mem_filter.mpr ⟨hmem, by
      simp only [decide_eq_true_eq]
      rw [inSlice_neg_of_no_rd hno]
      decide⟩
  · intro hmem hno
    unfold UpdateConfig
    exact List.mem_filter.mpr ⟨hmem, by
      simp only [decide_eq_true_eq]
      rw [inSlice_neg_of_no_rd hno]
      decide⟩
  · rintro ⟨v, hv, hrd⟩ hmem
    unfold UpdateConfig at hmem
    have := (List.mem_filter.mp hmem).2
    simp only [decide_eq_true_eq] at this
    exact absurd (inSlice_nonneg_of_rd_mem v hv hrd) (not_le.mpr this)
  · rintro ⟨v, hv, hrd⟩ hmem
    unfold UpdateConfig at hmem
    have := (List.mem_filter.mp hmem).2
    simp only [decide_eq_true_eq] at this
    exact absurd (inSlice_nonneg_of_rd_mem v hv hrd) (not_le.mpr this)

/-- Witness for C2: concrete snapshots `cur = [rd "a"]`,
`new = [rd "b"]` exercise all four conjuncts of `C2_rd_keyed_diff`. -/
theorem C2_rd_keyed_diff_witness :
    ((⟨"b", 2, 0, "", 0, [], []⟩ : VirtualNetwork) ∈
      (UpdateConfig (some ⟨"netlink", [⟨"a", 1, 0, "", 0, [], []⟩]⟩)
        ⟨"netlink", [⟨"b", 2, 0, "", 0, [], []⟩]⟩).1) ∧
    ((⟨"a", 1, 0, "", 0, [], []⟩ : VirtualNetwork) ∈
      (UpdateConfig (some ⟨"netlink", [⟨"a", 1, 0, "", 0, [], []⟩]⟩)
        ⟨"netlink", [⟨"b", 2, 0, "", 0, [], []⟩]⟩).2) ∧
    ((⟨"a", 9, 0, "", 0, [], []⟩ : VirtualNetwork) ∉
      (UpdateConfig (some ⟨"netlink", [⟨"a", 1, 0, "", 0, [], []⟩]⟩)
        ⟨"netlink", [⟨"b", 2, 0, "", 0, [], []⟩]⟩).1) ∧
    ((⟨"b", 9, 0, "", 0, [], []⟩ : VirtualNetwork) ∉
      (UpdateConfig (some ⟨"netlink", [⟨"a", 1, 0, "", 0, [], []⟩]⟩)
        ⟨"netlink", [⟨"b", 2, 0, "", 0, [], []⟩]⟩).2) := by
  refine ⟨?_, ?_, ?_, ?_⟩
  · exact (C2_rd_keyed_diff _ _ _).1 (by decide) (by decide)
  · exact (C2_rd_keyed_diff _ _ _).2.1 (by decide) (by decide)
  · exact (C2_rd_keyed_diff _ _ _).2.2.1 ⟨⟨"a", 1, 0, "", 0, [], []⟩, by decide, rfl⟩
  · exact (C2_rd_keyed_diff _ _ _).2.2.2 ⟨⟨"b", 2, 0, "", 0, [], []⟩, by decide, rfl⟩

/-! ## Claim C6 — ConfigInvalid fatal at startup, non-fatal at reload -/

/-- C6 counterexample: a well-formed startup read followed by a
malformed SIGHUP reload kills the process — `readConfigServe` reports
the fatal error from the reload iteration instead of surviving with the
previous configuration. -/
theorem C6_counterexample :
    readConfigServe
        [Except.ok ⟨⟨"netlink", []⟩, ⟨⟨⟨65000, "10.0.0.1"⟩⟩⟩⟩,
         Except.error "bad"]
      = ([⟨⟨"netlink", []⟩, ⟨⟨⟨65000, "10.0.0.1"⟩⟩⟩⟩], some "bad") := rfl

/-- C6 (amended): a malformed configuration read is fatal at *every*
iteration of the read loop — at startup and equally during a
SIGHUP-triggered reload.  After any prefix of good reads, the first
parse error kills the process (`some e`), and only the configs parsed
before it were ever delivered. -/
theorem C6_parse_error_always_fatal (pre : List ParseResult) (e : String)
    (rest : List ParseResult) (hpre : ∀ r ∈ pre, ∃ c, r = Except.ok c) :
    (readConfigServe (pre ++ Except.error e :: rest)).2 = some e ∧
    (readConfigServe (pre ++ Except.error e :: rest)).1.length = pre.length := by
  induction pre with
  | nil => exact ⟨rfl, rfl⟩
  | cons r pre ih =>
    obtain ⟨c, rfl⟩ := hpre r (List.mem_cons_self r pre)
    have ih2 := ih (fun r hr => hpre r (List.mem_cons_of_mem _ hr))
    simp only [List.cons_append, readConfigServe]
    exact ⟨ih2.1, by simp [ih2.2]⟩

/-- Witness for C6 (amended): one good startup read, then a malformed
reload at index 1 — fatal with exactly one config delivered. -/
theorem C6_parse_error_always_fatal_witness :
    (readConfigServe
        [Except.ok ⟨⟨"netlink", []⟩, ⟨⟨⟨65000, "10.0.0.2"⟩⟩⟩⟩,
         Except.error "oops"]).2 = some "oops" ∧
    (readConfigServe
        [Except.ok ⟨⟨"netlink", []⟩, ⟨⟨⟨65000, "10.0.0.2"⟩⟩⟩⟩,
         Except.error "oops"]).1.length = 1 := by
  have h := C6_parse_error_always_fatal
      [Except.ok ⟨⟨"netlink", []⟩, ⟨⟨⟨65000, "10.0.0.2"⟩⟩⟩⟩] "oops" []
      (by rintro r hr
          rw [List.mem_singleton] at hr
          exact ⟨_, hr⟩)
  simpa using h

/-! ## Claim C1 — a non-IPv4-unicast path drops the whole batch -/

/-- C1: in `monitorBest`, a batch containing any path whose route
family is not IPv4-unicast (or any nil path) is dropped whole — not
even its IPv4-unicast members reach `modRibCh` — while a batch of only
IPv4-unicast paths is forwarded intact. -/
theorem C1_nonv4_drops_batch (ev : WatchEvent) :
    ((∃ p ∈ eventPaths ev, ∀ tp, p = some tp → tp.routeFamily ≠ RF_IPv4_UC) →
      monitorBestStep ev = none) ∧
    ((∀ p ∈ eventPaths ev, ∃ tp, p = some tp ∧ tp.routeFamily = RF_IPv4_UC) →
      monitorBestStep ev = some (eventPaths ev)) := by
  constructor
  · rintro ⟨p, hp, hbad⟩
    unfold monitorBestStep
    have hexit : pathExitsLoop p = true := by
      match p with
      | none => rfl
      | some tp =>
        have := hbad tp rfl
        simp only [pathExitsLoop, Bool.not_eq_true', beq_eq_false_iff_ne, ne_eq]
        exact fun h => this h.symm
    rw [if_pos (List.any_eq_true.mpr ⟨p, hp, hexit⟩)]
  · intro hall
    unfold monitorBestStep
    rw [if_neg]
    simp only [List.any_eq_true, not_exists, not_and]
    intro p hp
    obtain ⟨tp, rfl, hfam⟩ := hall p hp
    simp [pathExitsLoop, hfam]

/-- Witness for C1: a batch holding one IPv4-unicast and one EVPN
(family `afi 25, safi 70`) path is dropped whole; a pure IPv4-unicast
batch passes through unchanged. -/
theorem C1_nonv4_drops_batch_witness :
    monitorBestStep (WatchEvent.bestPath
        [some ⟨"10.0.0.0/24", RF_IPv4_UC, false, none, []⟩,
         some ⟨"evpn", AfiSafiToRouteFamily 25 70, false, none, []⟩] [])
      = none ∧
    monitorBestStep (WatchEvent.update
        [some ⟨"10.0.0.0/24", RF_IPv4_UC, false, none, []⟩])
      = some [some ⟨"10.0.0.0/24", RF_IPv4_UC, false, none, []⟩] := by
  constructor
  · exact (C1_nonv4_drops_batch _).1
      ⟨some ⟨"evpn", AfiSafiToRouteFamily 25 70, false, none, []⟩,
        by decide, by
          intro tp htp
          cases htp
          decide⟩
  · exact (C1_nonv4_drops_batch _).2 (by
      intro p hp
      rw [show eventPaths (WatchEvent.update
          [some ⟨"10.0.0.0/24", RF_IPv4_UC, false, none, []⟩]) =
          [some ⟨"10.0.0.0/24", RF_IPv4_UC, false, none, []⟩] from rfl,
        List.mem_singleton] at hp
      exact ⟨⟨"10.0.0.0/24", RF_IPv4_UC, false, none, []⟩, hp, rfl⟩)

/-! ## Claim C7 — router-ID /32 ensured on loopback, nothing removed -/

/-- The `exist` fold of `Serve` agrees with list membership. -/
theorem loopback_exist_fold_eq_any (addr : Addr) :
    ∀ (l : List Addr) (b : Bool),
      l.foldl (fun e a => if a == addr then true else e) b
        = (b || l.any (fun a => a == addr))
  | [], _ => by simp
  | x :: l, b => by
    simp only [List.foldl_cons, List.any_cons]
    rw [loopback_exist_fold_eq_any addr l]
    cases h : (x == addr) <;>
      simp [h, Bool.or_comm, Bool.or_assoc, Bool.or_left_comm]

/-- C7: after obtaining the router ID, `Serve` ensures
`routerId/32` on the loopback — added exactly once when absent,
nothing added when present, and no pre-existing address is ever
removed (no `addrDel` is issued in either case). -/
theorem C7_loopback_ensure (addrList : List Addr) (routerId : String)
    (addr : Addr) (haddr : parseAddr (routerId ++ "/32") = some addr) :
    (addr ∈ addrList → serveLoopbackSetup addrList routerId = Except.ok []) ∧
    (addr ∉ addrList →
      serveLoopbackSetup addrList routerId
        = Except.ok [KernelOp.addrAdd addr]) ∧
    (∀ ops, serveLoopbackSetup addrList routerId = Except.ok ops →
      ∀ a, KernelOp.addrDel a ∉ ops) := by
  have hdef : serveLoopbackSetup addrList routerId =
      (if addrList.foldl (fun e a => if a == addr then true else e) false then
        Except.ok []
      else Except.ok [KernelOp.addrAdd addr]) := by
    unfold serveLoopbackSetup
    rw [haddr]
  rw [loopback_exist_fold_eq_any, Bool.false_or] at hdef
  refine ⟨?_, ?_, ?_⟩
  · intro hmem
    rw [hdef, if_pos (List.any_eq_true.mpr ⟨addr, hmem, by simp⟩)]
  · intro hmem
    rw [hdef, if_neg]
    simp only [List.any_eq_true, not_exists, not_and]
    intro a ha hb
    exact hmem (by rwa [show a = addr from by simpa using hb] at ha)
  · intro ops hops a
    rw [hdef] at hops
    by_cases h : addrList.any (fun a => a == addr) = true
    · rw [if_pos h] at hops
      simp only [Except.ok.injEq] at hops
      subst hops
      simp
    · rw [if_neg h] at hops
      simp only [Except.ok.injEq] at hops
      subst hops
      simp

/-- Witness for C7: router ID `10.0.0.1`; with an empty loopback the
address is added once, with it already present nothing is issued, and
no deletion appears in either op list. -/
theorem C7_loopback_ensure_witness :
    serveLoopbackSetup [] "10.0.0.1"
      = Except.ok [KernelOp.addrAdd ⟨IP.v4 10 0 0 1, 32⟩] ∧
    serveLoopbackSetup [⟨IP.v4 10 0 0 1, 32⟩] "10.0.0.1" = Except.ok [] ∧
    KernelOp.addrDel ⟨IP.v4 10 0 0 1, 32⟩
      ∉ [KernelOp.addrAdd ⟨IP.v4 10 0 0 1, 32⟩] := by
  have h1 := C7_loopback_ensure [] "10.0.0.1" ⟨IP.v4 10 0 0 1, 32⟩ (by decide)
  have h2 := C7_loopback_ensure [⟨IP.v4 10 0 0 1, 32⟩] "10.0.0.1"
      ⟨IP.v4 10 0 0 1, 32⟩ (by decide)
  refine ⟨h1.2.1 (by decide), h2.1 (by decide), ?_⟩
  exact h1.2.2 _ (h1.2.1 (by decide)) ⟨IP.v4 10 0 0 1, 32⟩

/-! ## Claim C9 — startup gating and the retry delay -/

/-- C9 counterexample: two failed dial attempts followed by a success
sleep `[10, 10]` — the retry delay is a constant ten seconds, not the
strictly growing sequence exponential backoff requires. -/
theorem C9_counterexample :
    (serveStartupLoop ⟨⟨"netlink", []⟩, ⟨⟨⟨65000, "10.0.0.1"⟩⟩⟩⟩ ⟨"", 0⟩
        [false, false, true]).sleeps = [10, 10] ∧
    ¬ List.Chain' (· < ·)
        (serveStartupLoop ⟨⟨"netlink", []⟩, ⟨⟨⟨65000, "10.0.0.1"⟩⟩⟩⟩ ⟨"", 0⟩
          [false, false, true]).sleeps := by
  constructor
  · rfl
  · intro h
    have : (10 : Nat) < 10 := by
      have hs : (serveStartupLoop ⟨⟨"netlink", []⟩, ⟨⟨⟨65000, "10.0.0.1"⟩⟩⟩⟩
          ⟨"", 0⟩ [false, false, true]).sleeps = [10, 10] := rfl
      rw [hs] at h
      exact List.chain'_cons.mp h |>.1
    exact absurd this (by decide)

/-- C9 (amended): the startup loop retries with a *fixed* ten-second
delay (not exponential backoff); it breaks out only when the router ID
is nonempty and the local AS nonzero, and on exit the `Dataplane`
fields hold exactly the configured global values (they are assigned
nowhere else in `Serve`, so they keep these values for the rest of the
run). -/
theorem C9_startup_gate (c : Config) (st : StartupState)
    (trace : List Bool) :
    (∀ s ∈ (serveStartupLoop c st trace).sleeps, s = 10) ∧
    ((serveStartupLoop c st trace).ready = true →
      (serveStartupLoop c st trace).state.routerId ≠ "" ∧
      (serveStartupLoop c st trace).state.localAS ≠ 0 ∧
      (serveStartupLoop c st trace).state.routerId
        = c.BGP.Global.Config.RouterId ∧
      (serveStartupLoop c st trace).state.localAS
        = c.BGP.Global.Config.As) := by
  induction trace generalizing st with
  | nil =>
    refine ⟨?_, ?_⟩
    · intro s hs
      cases hs
    · intro h
      exact absurd h (by simp [serveStartupLoop])
  | cons dialOk rest ih =>
    cases dialOk with
    | false =>
      have ih2 := ih st
      have hdef : serveStartupLoop c st (false :: rest) =
          ⟨10 :: (serveStartupLoop c st rest).sleeps,
           (serveStartupLoop c st rest).ready,
           (serveStartupLoop c st rest).state⟩ := rfl
      rw [hdef]
      refine ⟨?_, ih2.2⟩
      intro s hs
      rcases List.mem_cons.mp hs with h | h
      · exact h
      · exact ih2.1 s h
    | true =>
      by_cases hg : c.BGP.Global.Config.RouterId ≠ "" ∧
          c.BGP.Global.Config.As ≠ 0
      · have hdef : serveStartupLoop c st (true :: rest) =
            ⟨[], true, ⟨c.BGP.Global.Config.RouterId,
              c.BGP.Global.Config.As⟩⟩ := by
          show (if (⟨(GetServer c).Config.RouterId, (GetServer c).Config.As⟩
                : StartupState).routerId ≠ "" ∧
              (⟨(GetServer c).Config.RouterId, (GetServer c).Config.As⟩
                : StartupState).localAS ≠ 0 then _ else _) = _
          rw [if_pos]
          · rfl
          · exact hg
        rw [hdef]
        refine ⟨?_, fun _ => ⟨hg.1, hg.2, rfl, rfl⟩⟩
        intro s hs
        cases hs
      · have ih2 := ih ⟨c.BGP.Global.Config.RouterId, c.BGP.Global.Config.As⟩
        have hdef : serveStartupLoop c st (true :: rest) =
            ⟨10 :: (serveStartupLoop c
                ⟨c.BGP.Global.Config.RouterId, c.BGP.Global.Config.As⟩
                rest).sleeps,
             (serveStartupLoop c
                ⟨c.BGP.Global.Config.RouterId, c.BGP.Global.Config.As⟩
                rest).ready,
             (serveStartupLoop c
                ⟨c.BGP.Global.Config.RouterId, c.BGP.Global.Config.As⟩
                rest).state⟩ := by
          show (if (⟨(GetServer c).Config.RouterId, (GetServer c).Config.As⟩
                : StartupState).routerId ≠ "" ∧
              (⟨(GetServer c).Config.RouterId, (GetServer c).Config.As⟩
                : StartupState).localAS ≠ 0 then _ else _) = _
          rw [if_neg]
          · rfl
          · exact hg
        rw [hdef]
        refine ⟨?_, ih2.2⟩
        intro s hs
        rcases List.mem_cons.mp hs with h | h
        · exact h
        · exact ih2.1 s h

/-- Witness for C9 (amended): one failed and one successful dial
against the config `router_id = 10.0.0.1, as = 65000`. -/
theorem C9_startup_gate_witness :
    (∀ s ∈ (serveStartupLoop ⟨⟨"netlink", []⟩, ⟨⟨⟨65000, "10.0.0.1"⟩⟩⟩⟩
        ⟨"", 0⟩ [false, true]).sleeps, s = 10) ∧
    (serveStartupLoop ⟨⟨"netlink", []⟩, ⟨⟨⟨65000, "10.0.0.1"⟩⟩⟩⟩
        ⟨"", 0⟩ [false, true]).state.routerId = "10.0.0.1" ∧
    (serveStartupLoop ⟨⟨"netlink", []⟩, ⟨⟨⟨65000, "10.0.0.1"⟩⟩⟩⟩
        ⟨"", 0⟩ [false, true]).state.localAS = 65000 := by
  have h := C9_startup_gate ⟨⟨"netlink", []⟩, ⟨⟨⟨65000, "10.0.0.1"⟩⟩⟩⟩
      ⟨"", 0⟩ [false, true]
  exact ⟨h.1, (h.2 rfl).2.2.1, (h.2 rfl).2.2.2⟩

/-! ## Claim C10 — DeleteVirtualNetwork precondition -/

/-- Lookup of the deleted key in the filtered map is `none`. -/
theorem lookup_filter_self (rd : String) :
    ∀ m : VnMap, (m.filter (fun e => !(e.1 == rd))).lookup rd = none
  | [] => rfl
  | (k, v) :: m => by
    by_cases h : k = rd
    · subst h
      simpa using lookup_filter_self k m
    · have hk : (k == rd) = false := beq_false_of_ne h
      simp only [List.filter_cons, hk, Bool.not_false, if_pos]
      rw [List.lookup_cons]
      have : (rd == k) = false := beq_false_of_ne (Ne.symm h)
      rw [this]
      exact lookup_filter_self rd m

/-- Lookup of any other key is unchanged by the deletion. -/
theorem lookup_filter_other (rd rd2 : String) (hne : rd2 ≠ rd) :
    ∀ m : VnMap,
      (m.filter (fun e => !(e.1 == rd))).lookup rd2 = m.lookup rd2
  | [] => rfl
  | (k, v) :: m => by
    by_cases h : k = rd
    · subst h
      have : (rd2 == k) = false := beq_false_of_ne hne
      simp only [List.filter_cons, beq_self_eq_true, Bool.not_true, if_neg,
        Bool.false_eq_true, not_false_eq_true, List.lookup_cons, this]
      exact lookup_filter_other k rd2 hne m
    · have hk : (k == rd) = false := beq_false_of_ne h
      simp only [List.filter_cons, hk, Bool.not_false, if_pos]
      rw [List.lookup_cons, List.lookup_cons]
      cases hrdk : (rd2 == k)
      · exact lookup_filter_other rd rd2 hne m
      · rfl

/-- C10: the `delVnCh` handler is well-defined exactly under the
precondition that the RD is a key of `vnMap`: then it stops that very
worker and removes only its entry (other RDs keep their workers); for
an absent RD the unconditional dereference of the map lookup faults
(`none`). -/
theorem C10_delete_vn (m : VnMap) (rd : String) :
    (∀ vn, m.lookup rd = some vn →
      delVnHandler m rd = some (m.filter (fun e => !(e.1 == rd)), vn) ∧
      (m.filter (fun e => !(e.1 == rd))).lookup rd = none ∧
      ∀ rd2, rd2 ≠ rd →
        (m.filter (fun e => !(e.1 == rd))).lookup rd2 = m.lookup rd2) ∧
    (m.lookup rd = none → delVnHandler m rd = none) := by
  constructor
  · intro vn hvn
    refine ⟨?_, lookup_filter_self rd m, fun rd2 h => lookup_filter_other rd rd2 h m⟩
    unfold delVnHandler stopWorker
    rw [hvn]
  · intro hnone
    unfold delVnHandler stopWorker
    rw [hnone]

/-- Witness for C10: a map holding RDs `a` and `b`; deleting `a`
stops its worker, leaves `b`'s, and deleting the absent `c` faults. -/
theorem C10_delete_vn_witness :
    delVnHandler [("a", ⟨"a"⟩), ("b", ⟨"b"⟩)] "a"
      = some ([("b", ⟨"b"⟩)], ⟨"a"⟩) ∧
    (([("a", ⟨"a"⟩), ("b", ⟨"b"⟩)] : VnMap).filter
        (fun e => !(e.1 == "a"))).lookup "b" = some ⟨"b"⟩ ∧
    delVnHandler [("a", ⟨"a"⟩), ("b", ⟨"b"⟩)] "c" = none := by
  have h := C10_delete_vn [("a", ⟨"a"⟩), ("b", ⟨"b"⟩)] "a"
  have h1 := (h.1 ⟨"a"⟩ (by decide)).1
  have h2 := (h.1 ⟨"a"⟩ (by decide)).2.2 "b" (by decide)
  have h3 := (C10_delete_vn [("a", ⟨"a"⟩), ("b", ⟨"b"⟩)] "c").2 (by decide)
  refine ⟨by rw [h1]; rfl, by rw [h2]; rfl, h3⟩

/-! ## Claim C5 — self-originated paths cause no kernel mutation -/

/-- Helper: `modRib`'s multipath loop skips a self-originated sibling
outright (`continue` before any netlink call). -/
theorem mpStep_self_skip (acc : MpAcc) (q : TablePath)
    (h : (toPathApi q).neighborIp = "<nil>") : mpStep acc q = acc := by
  unfold mpStep
  rw [if_pos (by simp [h])]

/-- Helper: a fold of the multipath loop over only self-originated
paths leaves the accumulator untouched. -/
theorem foldl_mpStep_self (l : List TablePath) (acc : MpAcc)
    (h : ∀ p ∈ l, (toPathApi p).neighborIp = "<nil>") :
    l.foldl mpStep acc = acc := by
  induction l generalizing acc with
  | nil => rfl
  | cons p l ih =>
    rw [List.foldl_cons, mpStep_self_skip acc p (h p (List.mem_cons_self p l))]
    exact ih acc (fun q hq => h q (List.mem_cons_of_mem _ hq))

/-- C5: a batch consisting only of paths without a `NeighborIp`
(self-originated) causes no kernel mutation at all — `modRib` leaves
the kernel unchanged and issues no netlink call; inside a mixed
multipath batch every such sibling is skipped by the loop; and the VNW
ingress translation installs no FDB entry for a self-advertised path. -/
theorem C5_self_no_mutation (k : Kernel) (rid : String)
    (paths : List TablePath)
    (hall : ∀ p ∈ paths, (toPathApi p).neighborIp = "<nil>") :
    modRib k rid paths = ⟨k, []⟩ ∧
    (∀ (acc : MpAcc) (q : TablePath),
      (toPathApi q).neighborIp = "<nil>" → mpStep acc q = acc) ∧
    (∀ (p : EvpnMacIpPath) (vn : VirtualNetwork),
      p.neighborIp = "<nil>" → evpn_macip_to_fdb p vn = none) := by
  refine ⟨?_, mpStep_self_skip, ?_⟩
  · match paths with
    | [] => rfl
    | [p] =>
      show (if (toPathApi p).neighborIp == "<nil>"
          then (⟨k, []⟩ : RibOut) else _) = _
      rw [if_pos (by simp [hall p (List.mem_cons_self p [])])]
    | p :: q :: rest =>
      have hfold := foldl_mpStep_self (p :: q :: rest) ⟨k, [], []⟩ hall
      show (if ((p :: q :: rest).foldl mpStep ⟨k, [], []⟩).mp.isEmpty
          then (⟨((p :: q :: rest).foldl mpStep ⟨k, [], []⟩).kernel,
                ((p :: q :: rest).foldl mpStep ⟨k, [], []⟩).ops⟩ : RibOut)
          else _) = _
      rw [hfold]
      rfl
  · intro p vn hp
    unfold evpn_macip_to_fdb
    rw [if_pos (by simp [hp])]

/-- Witness for C5: a two-path batch of self-originated paths (nil
source address) issues nothing, and a self-advertised EVPN MAC/IP path
yields no FDB entry. -/
theorem C5_self_no_mutation_witness :
    modRib ⟨[], []⟩ "10.0.0.1"
        [⟨"10.0.0.0/24", RF_IPv4_UC, false, some ⟨none⟩, []⟩,
         ⟨"10.0.1.0/24", RF_IPv4_UC, false, some ⟨none⟩,
          [PathAttribute.nextHop (some (IP.v4 192 168 0 1))]⟩]
      = ⟨⟨[], []⟩, []⟩ ∧
    evpn_macip_to_fdb
        ⟨"<nil>", "65000:10", 10, "aa:aa:aa:aa:aa:01",
         some (IP.v4 10 0 0 2), some 10⟩
        ⟨"65000:10", 10, 4789, "eth0", 10, [], []⟩ = none := by
  have h := C5_self_no_mutation ⟨[], []⟩ "10.0.0.1"
      [⟨"10.0.0.0/24", RF_IPv4_UC, false, some ⟨none⟩, []⟩,
       ⟨"10.0.1.0/24", RF_IPv4_UC, false, some ⟨none⟩,
        [PathAttribute.nextHop (some (IP.v4 192 168 0 1))]⟩]
      (by decide)
  exact ⟨h.1, h.2.2 _ _ rfl⟩

/-! ## Claim C3 — recursive nexthop resolution -/

/-- C3 counterexample: nexthop `fe80::1` with an IPv6 neighbor entry
(link 1, MAC `aa:bb:cc:dd:ee:01`) whose MAC also has an IPv4 neighbor
`10.0.0.2` on link 1.  Resolution returns that IPv4 address — but with
`FLAG_ONLINK`, not the flags 0 the claim states: the source sets
`flags = FLAG_ONLINK` *before* scanning the IPv4 table. -/
theorem C3_counterexample :
    getNexthop
        ⟨[⟨1, 0, IP.v6 "fe80::1", "aa:bb:cc:dd:ee:01"⟩],
         [⟨1, 0, IP.v4 10 0 0 2, "aa:bb:cc:dd:ee:01"⟩]⟩
        (some ⟨"10.0.0.5",
          [PathAttribute.nextHop (some (IP.v6 "fe80::1"))], false⟩)
      = ⟨⟨[⟨1, 0, IP.v6 "fe80::1", "aa:bb:cc:dd:ee:01"⟩],
          [⟨1, 0, IP.v4 10 0 0 2, "aa:bb:cc:dd:ee:01"⟩]⟩,
         [], 1, some (IP.v4 10 0 0 2), FLAG_ONLINK⟩ ∧
    FLAG_ONLINK ≠ 0 := by
  exact ⟨rfl, by decide⟩

/-- C3 (amended): an IPv4 nexthop is returned directly with flags 0;
otherwise the nexthop is looked up in the IPv6 neighbor table, and when
its hardware address also appears in the IPv4 neighbor table on that
neighbor's link the entry's IPv4 address is returned with
`FLAG_ONLINK` (not 0); when it does not, a permanent IPv4 neighbor
`169.254.0.1` bound to the same MAC is installed on that link and
returned with `FLAG_ONLINK`. -/
theorem C3_nexthop_resolution (k : Kernel) (p : ApiPath)
    (hself : p.neighborIp ≠ "<nil>") :
    (∀ a b c d,
      getNextHopFromPathAttributes p.attrs = some (IP.v4 a b c d) →
      getNexthop k (some p) = ⟨k, [], 0, some (IP.v4 a b c d), 0⟩) ∧
    (∀ neigh n4,
      (getNextHopFromPathAttributes p.attrs).bind ipTo4 = none →
      (neighList k 0 FAMILY_V6).find?
          (fun n => getNextHopFromPathAttributes p.attrs == some n.ip)
        = some neigh →
      (neighList k neigh.linkIndex FAMILY_V4).find?
          (fun n => n.hardwareAddr == neigh.hardwareAddr) = some n4 →
      getNexthop k (some p)
        = ⟨k, [], n4.linkIndex, ipTo4 n4.ip, FLAG_ONLINK⟩) ∧
    (∀ neigh,
      (getNextHopFromPathAttributes p.attrs).bind ipTo4 = none →
      (neighList k 0 FAMILY_V6).find?
          (fun n => getNextHopFromPathAttributes p.attrs == some n.ip)
        = some neigh →
      (neighList k neigh.linkIndex FAMILY_V4).find?
          (fun n => n.hardwareAddr == neigh.hardwareAddr) = none →
      getNexthop k (some p)
        = ⟨neighAddV4 k ⟨neigh.linkIndex, NUD_PERMANENT, IP.v4 169 254 0 1,
              neigh.hardwareAddr⟩,
           [KernelOp.neighAdd ⟨neigh.linkIndex, NUD_PERMANENT,
              IP.v4 169 254 0 1, neigh.hardwareAddr⟩],
           neigh.linkIndex, some (IP.v4 169 254 0 1), FLAG_ONLINK⟩) := by
  have hcond : ¬ ((p.neighborIp == "<nil>") = true) := by
    simp [hself]
  refine ⟨?_, ?_, ?_⟩
  · intro a b c d hnh
    show (if p.neighborIp == "<nil>"
        then (⟨k, [], 0, none, 0⟩ : NexthopOut) else _) = _
    rw [if_neg hcond]
    simp only [hnh]
    rfl
  · intro neigh n4 hnh hv6 hv4
    show (if p.neighborIp == "<nil>"
        then (⟨k, [], 0, none, 0⟩ : NexthopOut) else _) = _
    rw [if_neg hcond]
    simp only [hnh, hv6, hv4]
  · intro neigh hnh hv6 hv4
    show (if p.neighborIp == "<nil>"
        then (⟨k, [], 0, none, 0⟩ : NexthopOut) else _) = _
    rw [if_neg hcond]
    simp only [hnh, hv6, hv4]

/-- Witness for C3 (amended): a direct IPv4 nexthop resolves with
flags 0, and a `fe80::1` nexthop whose MAC has no IPv4 neighbor gets
`169.254.0.1` installed permanently on its link with `FLAG_ONLINK`. -/
theorem C3_nexthop_resolution_witness :
    getNexthop ⟨[], []⟩
        (some ⟨"10.0.0.9",
          [PathAttribute.nextHop (some (IP.v4 192 168 0 1))], false⟩)
      = ⟨⟨[], []⟩, [], 0, some (IP.v4 192 168 0 1), 0⟩ ∧
    getNexthop ⟨[⟨3, 0, IP.v6 "fe80::1", "aa:bb:cc:dd:ee:02"⟩], []⟩
        (some ⟨"10.0.0.9",
          [PathAttribute.nextHop (some (IP.v6 "fe80::1"))], false⟩)
      = ⟨⟨[⟨3, 0, IP.v6 "fe80::1", "aa:bb:cc:dd:ee:02"⟩],
          [⟨3, NUD_PERMANENT, IP.v4 169 254 0 1, "aa:bb:cc:dd:ee:02"⟩]⟩,
         [KernelOp.neighAdd
            ⟨3, NUD_PERMANENT, IP.v4 169 254 0 1, "aa:bb:cc:dd:ee:02"⟩],
         3, some (IP.v4 169 254 0 1), FLAG_ONLINK⟩ := by
  constructor
  · exact (C3_nexthop_resolution ⟨[], []⟩
      ⟨"10.0.0.9", [PathAttribute.nextHop (some (IP.v4 192 168 0 1))], false⟩
      (by decide)).1 192 168 0 1 rfl
  · exact (C3_nexthop_resolution
      ⟨[⟨3, 0, IP.v6 "fe80::1", "aa:bb:cc:dd:ee:02"⟩], []⟩
      ⟨"10.0.0.9", [PathAttribute.nextHop (some (IP.v6 "fe80::1"))], false⟩
      (by decide)).2.2 ⟨3, 0, IP.v6 "fe80::1", "aa:bb:cc:dd:ee:02"⟩
      rfl rfl rfl

/-! ## Claim C4 — kernel programming of IPv4-unicast best paths -/

/-- C4 counterexample: a two-path batch whose second sibling has a
`NeighborIp` but an unresolvable nexthop (IPv6 nexthop with no
neighbor entry).  The claim says such a sibling is skipped; the code
appends a `NexthopInfo` with an empty gateway instead, so the emitted
multipath route has two entries, one with `gw = none`. -/
theorem C4_counterexample :
    modRib ⟨[], []⟩ "10.0.0.1"
        [⟨"10.0.0.0/24", RF_IPv4_UC, false, some ⟨some (IP.v4 10 0 0 9)⟩,
          [PathAttribute.nextHop (some (IP.v4 192 168 0 1))]⟩,
         ⟨"10.0.0.0/24", RF_IPv4_UC, false, some ⟨some (IP.v4 10 0 0 8)⟩,
          [PathAttribute.nextHop (some (IP.v6 "fe80::9"))]⟩]
      = ⟨⟨[], []⟩,
         [KernelOp.routeReplace
            ⟨"10.0.0.0/24", some (IP.v4 10 0 0 1), none, 0, 0,
             [⟨some (IP.v4 192 168 0 1), 0, 0⟩, ⟨none, 0, 0⟩]⟩]⟩ ∧
    (⟨none, 0, 0⟩ : NexthopInfo)
      ∈ [(⟨some (IP.v4 192 168 0 1), 0, 0⟩ : NexthopInfo), ⟨none, 0, 0⟩] := by
  exact ⟨rfl, by decide⟩

/-- C4 (amended): a single active IPv4-unicast path yields a
`route_replace` whose source is the router ID and whose gateway is the
path's resolved nexthop, or a `route_delete` of the same prefix on
withdraw; for multipath batches the loop computes a resolved nexthop
for every sibling whose `NeighborIp` is present — including those
whose resolution yields no gateway, which are appended with an empty
gateway instead of being skipped — and a single multipath route is
built, deleted instead of replaced when the first path is a
withdraw. -/
theorem C4_rib_programming (k : Kernel) (rid : String) (p q : TablePath)
    (rest : List TablePath) (acc : MpAcc)
    (hp : (toPathApi p).neighborIp ≠ "<nil>")
    (hq : (toPathApi q).neighborIp ≠ "<nil>") :
    (modRib k rid [p] =
      ⟨(getNexthop k (some (toPathApi p))).kernel,
       (getNexthop k (some (toPathApi p))).ops ++
        [if p.isWithdraw then
          KernelOp.routeDel
            ⟨p.nlriString, parseIP rid,
             (getNexthop k (some (toPathApi p))).gw,
             (getNexthop k (some (toPathApi p))).link,
             (getNexthop k (some (toPathApi p))).flags, []⟩
         else
          KernelOp.routeReplace
            ⟨p.nlriString, parseIP rid,
             (getNexthop k (some (toPathApi p))).gw,
             (getNexthop k (some (toPathApi p))).link,
             (getNexthop k (some (toPathApi p))).flags, []⟩]⟩) ∧
    (mpStep acc q =
      ⟨(getNexthop acc.kernel (some (toPathApi q))).kernel,
       acc.ops ++ (getNexthop acc.kernel (some (toPathApi q))).ops,
       acc.mp ++
        [⟨(getNexthop acc.kernel (some (toPathApi q))).gw,
          (getNexthop acc.kernel (some (toPathApi q))).link,
          (getNexthop acc.kernel (some (toPathApi q))).flags⟩]⟩) ∧
    (modRib k rid (p :: q :: rest) =
      if ((p :: q :: rest).foldl mpStep ⟨k, [], []⟩).mp.isEmpty then
        ⟨((p :: q :: rest).foldl mpStep ⟨k, [], []⟩).kernel,
         ((p :: q :: rest).foldl mpStep ⟨k, [], []⟩).ops⟩
      else
        ⟨((p :: q :: rest).foldl mpStep ⟨k, [], []⟩).kernel,
         ((p :: q :: rest).foldl mpStep ⟨k, [], []⟩).ops ++
          [if p.isWithdraw then
            KernelOp.routeDel ⟨p.nlriString, parseIP rid, none, 0, 0,
              ((p :: q :: rest).foldl mpStep ⟨k, [], []⟩).mp⟩
           else
            KernelOp.routeReplace ⟨p.nlriString, parseIP rid, none, 0, 0,
              ((p :: q :: rest).foldl mpStep ⟨k, [], []⟩).mp⟩]⟩) := by
  refine ⟨?_, ?_, rfl⟩
  · show (if (toPathApi p).neighborIp == "<nil>"
        then (⟨k, []⟩ : RibOut) else _) = _
    rw [if_neg (by simp [hp])]
  · show (if (toPathApi q).neighborIp == "<nil>" then acc else _) = _
    rw [if_neg (by simp [hq])]

/-- Witness for C4 (amended): a concrete single active path replaced
with source `10.0.0.1` and gateway `192.168.0.1`, and a concrete
multipath step appending an entry with an empty gateway for an
unresolvable sibling. -/
theorem C4_rib_programming_witness :
    modRib ⟨[], []⟩ "10.0.0.1"
        [⟨"10.0.2.0/24", RF_IPv4_UC, false, some ⟨some (IP.v4 10 0 0 9)⟩,
          [PathAttribute.nextHop (some (IP.v4 192 168 0 1))]⟩]
      = ⟨⟨[], []⟩,
         [KernelOp.routeReplace
            ⟨"10.0.2.0/24", some (IP.v4 10 0 0 1),
             some (IP.v4 192 168 0 1), 0, 0, []⟩]⟩ ∧
    mpStep ⟨⟨[], []⟩, [], []⟩
        ⟨"10.0.2.0/24", RF_IPv4_UC, false, some ⟨some (IP.v4 10 0 0 8)⟩,
         [PathAttribute.nextHop (some (IP.v6 "fe80::9"))]⟩
      = ⟨⟨[], []⟩, [], [⟨none, 0, 0⟩]⟩ := by
  have h := C4_rib_programming ⟨[], []⟩ "10.0.0.1"
      ⟨"10.0.2.0/24", RF_IPv4_UC, false, some ⟨some (IP.v4 10 0 0 9)⟩,
        [PathAttribute.nextHop (some (IP.v4 192 168 0 1))]⟩
      ⟨"10.0.2.0/24", RF_IPv4_UC, false, some ⟨some (IP.v4 10 0 0 8)⟩,
        [PathAttribute.nextHop (some (IP.v6 "fe80::9"))]⟩
      [] ⟨⟨[], []⟩, [], []⟩ (by decide) (by decide)
  refine ⟨?_, ?_⟩
  · rw [h.1]
    rfl
  · rw [h.2.1]
    rfl

end Goplane
